import Mathlib

/-!
# Verification of the httpbin HTTP Digest Authentication helpers

Shallow embedding of `src/evolution_02/httpbin/helpers.py` (the digest-auth
helpers `H`, `HA1`, `HA2`, `response`, `check_digest_auth`) in Lean 4, together
with theorems settling the frozen claims about them.

Modelling conventions:
* Python 2 `str` values are modelled as Lean `String`; raw request bodies
  (`request.data`, fed to `md5` as bytes) are modelled as `List Nat` byte
  sequences (each entry < 256).
* A Python dict holding string values under the fixed keys used by the code is
  modelled as a structure of `Option String` fields; `d.get(k)` is the field,
  `k in d` is `isSome`, `d[k]` raises `KeyError` when the field is `none`.
* Python exceptions are modelled by the `Except PyError` monad: `ValueError(m)`
  as `.valueError m`, a bare `ValueError()` as `.valueErrorNoArgs`, `TypeError`
  (e.g. colon-joining a list containing `None`) as `.typeError`, and
  `KeyError(k)` as `.keyError k`.
* `hashlib.md5` is external library code; it is embedded as the RFC 1321 MD5
  algorithm over byte lists, validated below against the RFC 1321 test vectors.
-/

set_option maxRecDepth 100000

namespace Httpbin

/-! ## MD5 (RFC 1321), executable over byte lists -/

/-- 2^32, the word modulus of MD5. -/
def M32 : Nat := 4294967296

/-- Bitwise complement on 32-bit words. -/
def bnot32 (x : Nat) : Nat := Nat.xor x 4294967295

/-- Left-rotation of a 32-bit word by `s` places (`0 < s < 32`). -/
def rotl32 (x s : Nat) : Nat :=
  Nat.lor ((x <<< s) % M32) ((x % M32) >>> (32 - s))

/-- The 64 MD5 sine-derived round constants `T[i] = floor(2^32 * |sin(i+1)|)`. -/
def mdK : List Nat :=
  [0xd76aa478, 0xe8c7b756, 0x242070db, 0xc1bdceee,
   0xf57c0faf, 0x4787c62a, 0xa8304613, 0xfd469501,
   0x698098d8, 0x8b44f7af, 0xffff5bb1, 0x895cd7be,
   0x6b901122, 0xfd987193, 0xa679438e, 0x49b40821,
   0xf61e2562, 0xc040b340, 0x265e5a51, 0xe9b6c7aa,
   0xd62f105d, 0x02441453, 0xd8a1e681, 0xe7d3fbc8,
   0x21e1cde6, 0xc33707d6, 0xf4d50d87, 0x455a14ed,
   0xa9e3e905, 0xfcefa3f8, 0x676f02d9, 0x8d2a4c8a,
   0xfffa3942, 0x8771f681, 0x6d9d6122, 0xfde5380c,
   0xa4beea44, 0x4bdecfa9, 0xf6bb4b60, 0xbebfbc70,
   0x289b7ec6, 0xeaa127fa, 0xd4ef3085, 0x04881d05,
   0xd9d4d039, 0xe6db99e5, 0x1fa27cf8, 0xc4ac5665,
   0xf4292244, 0x432aff97, 0xab9423a7, 0xfc93a039,
   0x655b59c3, 0x8f0ccc92, 0xffeff47d, 0x85845dd1,
   0x6fa87e4f, 0xfe2ce6e0, 0xa3014314, 0x4e0811a1,
   0xf7537e82, 0xbd3af235, 0x2ad7d2bb, 0xeb86d391]

/-- The 64 MD5 per-round left-rotation amounts. -/
def mdS : List Nat :=
  [7, 12, 17, 22, 7, 12, 17, 22, 7, 12, 17, 22, 7, 12, 17, 22,
   5, 9, 14, 20, 5, 9, 14, 20, 5, 9, 14, 20, 5, 9, 14, 20,
   4, 11, 16, 23, 4, 11, 16, 23, 4, 11, 16, 23, 4, 11, 16, 23,
   6, 10, 15, 21, 6, 10, 15, 21, 6, 10, 15, 21, 6, 10, 15, 21]

/-- One MD5 round step `i` (0 ≤ i < 64) on state `(a, b, c, d)` with message
words `X` (16 little-endian 32-bit words of the current block). -/
def md5round (X : List Nat) (st : Nat × Nat × Nat × Nat) (i : Nat) :
    Nat × Nat × Nat × Nat :=
  let a := st.1
  let b := st.2.1
  let c := st.2.2.1
  let d := st.2.2.2
  let f :=
    if i < 16 then Nat.lor (Nat.land b c) (Nat.land (bnot32 b) d)
    else if i < 32 then Nat.lor (Nat.land d b) (Nat.land (bnot32 d) c)
    else if i < 48 then Nat.xor (Nat.xor b c) d
    else Nat.xor c (Nat.lor b (bnot32 d))
  let g :=
    if i < 16 then i
    else if i < 32 then (5 * i + 1) % 16
    else if i < 48 then (3 * i + 5) % 16
    else (7 * i) % 16
  let tmp := rotl32 ((a + f + mdK.getD i 0 + X.getD g 0) % M32) (mdS.getD i 0)
  (d, (b + tmp) % M32, b, c)

/-- MD5 compression of one 16-word block into the running state. -/
def md5block (st : Nat × Nat × Nat × Nat) (X : List Nat) :
    Nat × Nat × Nat × Nat :=
  let r := (List.range 64).foldl (md5round X) st
  ((st.1 + r.1) % M32, (st.2.1 + r.2.1) % M32,
   (st.2.2.1 + r.2.2.1) % M32, (st.2.2.2 + r.2.2.2) % M32)

/-- Fold MD5 compression over a word stream, 16 words (one block) at a time. -/
def md5words (st : Nat × Nat × Nat × Nat) : List Nat → Nat × Nat × Nat × Nat
  | w0 :: w1 :: w2 :: w3 :: w4 :: w5 :: w6 :: w7 ::
    w8 :: w9 :: w10 :: w11 :: w12 :: w13 :: w14 :: w15 :: rest =>
      md5words (md5block st
        [w0, w1, w2, w3, w4, w5, w6, w7, w8, w9, w10, w11, w12, w13, w14, w15])
        rest
  | _ => st

/-- Assemble a byte list into little-endian 32-bit words, 4 bytes per word. -/
def leWords : List Nat → List Nat
  | b0 :: b1 :: b2 :: b3 :: rest =>
      (b0 + 256 * b1 + 65536 * b2 + 16777216 * b3) :: leWords rest
  | _ => []

/-- The 8 little-endian bytes of a 64-bit length-in-bits value. -/
def le64 (n : Nat) : List Nat :=
  [n % 256, (n >>> 8) % 256, (n >>> 16) % 256, (n >>> 24) % 256,
   (n >>> 32) % 256, (n >>> 40) % 256, (n >>> 48) % 256, (n >>> 56) % 256]

/-- MD5 padding: append `0x80`, zero bytes to 56 mod 64, then the 64-bit
little-endian bit length. -/
def padMsg (msg : List Nat) : List Nat :=
  msg ++ 128 :: List.replicate ((119 - msg.length % 64) % 64) 0
      ++ le64 (msg.length * 8)

/-- The 4 little-endian bytes of a 32-bit word. -/
def wordBytes (w : Nat) : List Nat :=
  [w % 256, (w >>> 8) % 256, (w >>> 16) % 256, (w >>> 24) % 256]

/-- The 16-byte MD5 digest of a byte list. -/
def md5bytes (msg : List Nat) : List Nat :=
  let st := md5words (0x67452301, 0xefcdab89, 0x98badcfe, 0x10325476)
    (leWords (padMsg msg))
  wordBytes st.1 ++ wordBytes st.2.1 ++ wordBytes st.2.2.1 ++ wordBytes st.2.2.2

/-- Lowercase hex digit of a value < 16. -/
def hexDigit (n : Nat) : Char :=
  if n < 10 then Char.ofNat (48 + n) else Char.ofNat (87 + n)

/-- Two lowercase hex digits of a byte. -/
def byteHex (b : Nat) : List Char := [hexDigit (b / 16), hexDigit (b % 16)]

/-- Lowercase hex string of a byte list. -/
def bytesHex (bs : List Nat) : String := String.mk (bs.map byteHex).flatten

/-- UTF-8 bytes of one character (all strings in this development are ASCII,
where this coincides with the Python 2 byte string the source hashes). -/
def charBytes (c : Char) : List Nat :=
  let n := c.toNat
  if n < 128 then [n]
  else if n < 2048 then [192 + n / 64, 128 + n % 64]
  else if n < 65536 then
    [224 + n / 4096, 128 + (n / 64) % 64, 128 + n % 64]
  else
    [240 + n / 262144, 128 + (n / 4096) % 64, 128 + (n / 64) % 64, 128 + n % 64]

/-- UTF-8 byte sequence of a string. -/
def strBytes (s : String) : List Nat := (s.data.map charBytes).flatten

/-- First message of a published 1024-bit MD5 collision pair (Wang et al.); its MD5 digest equals that of `collideB` under `hashlib.md5` and under the embedding below. -/
def collideA : List Nat :=
  [209, 49, 221, 2, 197, 230, 238, 196, 105, 61, 154, 6, 152, 175, 249, 92, 47, 202, 181, 135, 18, 70, 126, 171, 64, 4, 88, 62, 184, 251, 127, 137, 85, 173, 52, 6, 9, 244, 179, 2, 131, 228, 136, 131, 37, 113, 65, 90, 8, 81, 37, 232, 247, 205, 201, 159, 217, 29, 189, 242, 128, 55, 60, 91, 216, 130, 62, 49, 86, 52, 143, 91, 174, 109, 172, 212, 54, 201, 25, 198, 221, 83, 226, 180, 135, 218, 3, 253, 2, 57, 99, 6, 210, 72, 205, 160, 233, 159, 51, 66, 15, 87, 126, 232, 206, 84, 182, 112, 128, 168, 13, 30, 198, 152, 33, 188, 182, 168, 131, 147, 150, 249, 101, 43, 111, 247, 42, 112]

/-- Second message of the published MD5 collision pair; differs from `collideA` in 6 bytes yet has the same MD5 digest. -/
def collideB : List Nat :=
  [209, 49, 221, 2, 197, 230, 238, 196, 105, 61, 154, 6, 152, 175, 249, 92, 47, 202, 181, 7, 18, 70, 126, 171, 64, 4, 88, 62, 184, 251, 127, 137, 85, 173, 52, 6, 9, 244, 179, 2, 131, 228, 136, 131, 37, 241, 65, 90, 8, 81, 37, 232, 247, 205, 201, 159, 217, 29, 189, 114, 128, 55, 60, 91, 216, 130, 62, 49, 86, 52, 143, 91, 174, 109, 172, 212, 54, 201, 25, 198, 221, 83, 226, 52, 135, 218, 3, 253, 2, 57, 99, 6, 210, 72, 205, 160, 233, 159, 51, 66, 15, 87, 126, 232, 206, 84, 182, 112, 128, 40, 13, 30, 198, 152, 33, 188, 182, 168, 131, 147, 150, 249, 101, 171, 111, 247, 42, 112]

/-! ## Python-value modelling -/

/-- Python exceptions raised by the digest helpers. -/
inductive PyError where
  /-- `ValueError(msg)` with an explicit message. -/
  | valueError (msg : String)
  /-- A bare `raise ValueError` with no message (the `HA2` fallthrough). -/
  | valueErrorNoArgs
  /-- `TypeError`, e.g. `":".join` applied to a list containing `None`. -/
  | typeError
  /-- `KeyError(key)` from `d[key]` on a dict lacking `key`. -/
  | keyError (key : String)
deriving DecidableEq

/-- The three Python values `check_digest_auth` can return: `True`, `False`,
or `None` (the bare `return` taken when parsing yields no credentials). -/
inductive PyResult where
  | pyTrue
  | pyFalse
  | pyNone
deriving DecidableEq

/-- The credential fields the digest helpers read from the parsed
`Authorization` header dict. A field holds `none` when its key is absent:
`d.get(k)` is the field itself, `k in d` is its `isSome`. -/
structure Credentials where
  realm : Option String
  username : Option String
  nonce : Option String
  qop : Option String
  nc : Option String
  cnonce : Option String
  response : Option String
deriving DecidableEq

/-- The request dict `dict(uri=..., body=..., method=...)` handed to the
digest helpers; `HA2` can also be called with keys missing, hence `Option`.
The body is raw bytes (`request.data`). -/
structure RequestData where
  method : Option String
  uri : Option String
  body : Option (List Nat)
deriving DecidableEq

/-- Python 2 `"%s" % v` rendering of a possibly-`None` string value. -/
def pyFmt : Option String → String
  | some s => s
  | none => "None"

/-! ## The digest helpers of `httpbin/helpers.py` -/

/-- `H(data) = md5(data).hexdigest()` on a text argument. -/
def H (data : String) : String := bytesHex (md5bytes (strBytes data))

/-- `H(data) = md5(data).hexdigest()` on a raw byte argument (the request
body). -/
def Hbytes (data : List Nat) : String := bytesHex (md5bytes data)

/-- `HA1(realm, username, password) = H("%s:%s:%s" % (username, realm,
password))`. The first two arguments arrive via `credentails.get(...)` and may
be `None`, which `%s` renders as the text `"None"`. -/
def HA1 (realm username : Option String) (password : String) : String :=
  H (pyFmt username ++ ":" ++ pyFmt realm ++ ":" ++ password)

/-- `HA2(credentails, request)`: for qop `"auth"` or unspecified,
`H(method:uri)` (direct `request[...]` accesses, `KeyError` when absent); for
qop `"auth-int"`, first the loop checking `method`, `uri`, `body` membership in
order (`ValueError("%s required" % k)` at the first missing key), then
`H(method:uri:H(body))`; any other qop falls through to a bare
`raise ValueError`. -/
def HA2 (credentails : Credentials) (req : RequestData) : Except PyError String :=
  if credentails.qop = some "auth" ∨ credentails.qop = none then
    match req.method, req.uri with
    | none, _ => .error (.keyError "method")
    | some _, none => .error (.keyError "uri")
    | some m, some u => .ok (H (m ++ ":" ++ u))
  else if credentails.qop = some "auth-int" then
    match req.method, req.uri, req.body with
    | none, _, _ => .error (.valueError "method required")
    | some _, none, _ => .error (.valueError "uri required")
    | some _, some _, none => .error (.valueError "body required")
    | some m, some u, some b => .ok (H (m ++ ":" ++ u ++ ":" ++ Hbytes b))
  else .error .valueErrorNoArgs

/-- Python `":".join` on a list of strings (all elements known to be
strings). -/
def joinStrs : List String → String
  | [] => ""
  | [x] => x
  | x :: xs => x ++ ":" ++ joinStrs xs

/-- `response(credentails, password, request)`: computes
`HA1_value = HA1(credentails.get('realm'), credentails.get('username'),
password)` and `HA2_value = HA2(credentails, request)` (whose exceptions
propagate), then
* qop unspecified: `H(":".join([HA1_value, credentails.get('nonce'),
  HA2_value]))` — when the `nonce` key is absent, `get` yields `None` and
  `":".join` raises `TypeError`;
* qop `"auth"`/`"auth-int"`: the loop checking `nonce`, `nc`, `cnonce`, `qop`
  membership in order (`ValueError("%s required for response H" % k)` at the
  first missing key; `qop` is present in this branch), then the 6-field join;
* any other qop: `raise ValueError("qop value are wrong")`. -/
def response (credentails : Credentials) (password : String) (req : RequestData) :
    Except PyError String :=
  let HA1_value := HA1 credentails.realm credentails.username password
  match HA2 credentails req with
  | .error e => .error e
  | .ok HA2_value =>
    match credentails.qop with
    | none =>
      match credentails.nonce with
      | none => .error .typeError
      | some nonce => .ok (H (joinStrs [HA1_value, nonce, HA2_value]))
    | some q =>
      if q = "auth" ∨ q = "auth-int" then
        match credentails.nonce, credentails.nc, credentails.cnonce with
        | none, _, _ => .error (.valueError "nonce required for response H")
        | some _, none, _ => .error (.valueError "nc required for response H")
        | some _, some _, none =>
            .error (.valueError "cnonce required for response H")
        | some nonce, some nc, some cnonce =>
            .ok (H (joinStrs [HA1_value, nonce, nc, cnonce, q, HA2_value]))
      else .error (.valueError "qop value are wrong")

/-- The body of `check_digest_auth` after the `Authorization` header has been
parsed: `None` credentials take the bare `return` (Python `None`); otherwise
`response(...)` runs (exceptions propagate uncaught), `credentails['response']`
is read (`KeyError` when absent), and the exact string comparison decides
`True` / fallthrough `False`. -/
def check_digest_auth_with (credentails : Option Credentials) (passwd : String)
    (req : RequestData) : Except PyError PyResult :=
  match credentails with
  | none => .ok .pyNone
  | some c =>
    match response c passwd req with
    | .error e => .error e
    | .ok response_hash =>
      match c.response with
      | none => .error (.keyError "response")
      | some r => if r = response_hash then .ok .pyTrue else .ok .pyFalse

/-! ## The `Authorization` header parser

`check_digest_auth` delegates parsing to `werkzeug.http.parse_authorization_header`,
which is third-party library code outside `src/`. It is modelled from the
spec below. -/

/-- ASCII lowercasing of one character. -/
def lowerChar (c : Char) : Char :=
  if 'A' ≤ c ∧ c ≤ 'Z' then Char.ofNat (c.toNat + 32) else c

/-- Split a character list at commas that are outside double-quoted regions. -/
def splitItems : List Char → Bool → List Char → List (List Char)
  | [], _, acc => [acc.reverse]
  | c :: rest, inQ, acc =>
    if c = '"' then splitItems rest (!inQ) (c :: acc)
    else if c = ',' ∧ inQ = false then acc.reverse :: splitItems rest false []
    else splitItems rest inQ (c :: acc)

/-- Drop leading and trailing spaces. -/
def trimSpaces (cs : List Char) : List Char :=
  ((cs.dropWhile (· = ' ')).reverse.dropWhile (· = ' ')).reverse

/-- Split a character list at its first `=`, when present. -/
def breakEq : List Char → Option (List Char × List Char)
  | [] => none
  | c :: rest =>
    if c = '=' then some ([], rest)
    else (breakEq rest).map (fun p => (c :: p.1, p.2))

/-- Split a character list at its first space, when present. -/
def breakSpace : List Char → Option (List Char × List Char)
  | [] => none
  | c :: rest =>
    if c = ' ' then some ([], rest)
    else (breakSpace rest).map (fun p => (c :: p.1, p.2))

/-- Strip one matching pair of surrounding double quotes. -/
def unquote (cs : List Char) : List Char :=
  match cs with
  | '"' :: rest =>
    if rest ≠ [] ∧ rest.getLast? = some '"' then rest.dropLast else cs
  | _ => cs

/-- One `key=value` item of the comma-separated list, with the value unquoted;
items with no `=` are discarded. -/
def parseItem (cs : List Char) : Option (String × String) :=
  match breakEq (trimSpaces cs) with
  | some (k, v) =>
    some (String.mk (trimSpaces k), String.mk (unquote (trimSpaces v)))
  | none => none

/-- Dict-style lookup in the parsed item list: the last occurrence of a key
wins, as later dict insertions overwrite earlier ones. -/
def lookupKey (ps : List (String × String)) (k : String) : Option String :=
  (ps.reverse.find? (fun p => p.1 = k)).map (fun p => p.2)

/-- Modelled from the spec: `werkzeug.http.parse_authorization_header`
(third-party code not under `src/`). Parses a `Digest` authorization header
value per the standard comma-separated `key=value` grammar with quoted-string
values unquoted, and returns a usable credential set only when `username`,
`realm`, `nonce` and `response` are present and, when `qop` is present, `nc`
and `cnonce` are present with it (the spec's all-or-nothing invariant on the
qop-correlated fields); otherwise parsing yields `none` ("malformed header is
treated as authentication failure"). -/
def parse_authorization_header (value : String) : Option Credentials :=
  match breakSpace value.data with
  | none => none
  | some (ty, rest) =>
    if String.mk (ty.map lowerChar) = "digest" then
      let ps := (splitItems rest false []).filterMap parseItem
      let c : Credentials :=
        { realm := lookupKey ps "realm"
          username := lookupKey ps "username"
          nonce := lookupKey ps "nonce"
          qop := lookupKey ps "qop"
          nc := lookupKey ps "nc"
          cnonce := lookupKey ps "cnonce"
          response := lookupKey ps "response" }
      if c.username.isSome ∧ c.realm.isSome ∧ c.nonce.isSome ∧
          c.response.isSome ∧ (c.qop.isSome → c.nc.isSome ∧ c.cnonce.isSome) then
        some c
      else none
    else none

/-- `check_digest_auth(user, passwd)`: the top-level verifier. The flask
request state it reads is passed explicitly: the raw `Authorization` header
value (absent or empty ⇒ the outer `if` fails ⇒ `False`), and the
`request.path` / `request.data` / `request.method` triple from which it builds
the complete request dict. The `user` argument is accepted but never read. -/
def check_digest_auth (user passwd : String) (authorization : Option String)
    (path : String) (body : List Nat) (method : String) :
    Except PyError PyResult :=
  match authorization with
  | none => .ok .pyFalse
  | some a =>
    if a = "" then .ok .pyFalse
    else
      check_digest_auth_with (parse_authorization_header a) passwd
        ⟨some method, some path, some body⟩

/-! ## Concrete inputs used by witnesses -/

/-- A qop-unspecified credential set whose `response` field holds the hash the
code computes for password `"pw"` over `reqStd`. -/
def cNoQop : Credentials :=
  { realm := some "r", username := some "u", nonce := some "n", qop := none,
    nc := some "00000001", cnonce := some "c",
    response := some "a02b39e920f463b25452d872479507c4" }

/-- The same credential set with qop `"auth"` and the matching response
hash. -/
def cAuth : Credentials :=
  { cNoQop with
    qop := some "auth"
    response := some "f1241caffb47e6abdbe58f0467512860" }

/-- The same credential set with qop `"auth-int"`. -/
def cAuthInt : Credentials := { cNoQop with qop := some "auth-int" }

/-- The same credential set with the unsupported qop value
`"unknown-mode"`. -/
def cUnknownQop : Credentials := { cNoQop with qop := some "unknown-mode" }

/-- A complete request dict: `GET /` with body `"hello"`, as
`check_digest_auth` builds it. -/
def reqStd : RequestData := ⟨some "GET", some "/", some (strBytes "hello")⟩

/-! ## Sanity anchors for the MD5 embedding -/

/-- The embedded MD5 matches the RFC 1321 test vector for `"abc"`. -/
theorem md5_rfc1321_abc :
    bytesHex (md5bytes (strBytes "abc")) = "900150983cd24fb0d6963f7d28e17f72" := by
  decide

/-- The embedded MD5 matches the RFC 1321 test vector for the empty
message. -/
theorem md5_rfc1321_empty :
    bytesHex (md5bytes (strBytes "")) = "d41d8cd98f00b204e9800998ecf8427e" := by
  decide

/-- The embedded MD5 exhibits the published collision: the two distinct
128-byte messages have equal digests. -/
theorem md5_collision_pair :
    collideA ≠ collideB ∧ md5bytes collideA = md5bytes collideB := by
  constructor
  · decide
  · decide

/-! ## Helper lemmas -/

/-- Hex rendering doubles the byte count. -/
theorem bytesHex_length (bs : List Nat) : (bytesHex bs).length = 2 * bs.length := by
  have key : ∀ l : List Nat, ((l.map byteHex).flatten).length = 2 * l.length := by
    intro l
    induction l with
    | nil => rfl
    | cons b t ih =>
      simp only [List.map_cons, List.flatten_cons, List.length_append, ih,
        byteHex, List.length_cons, List.length_nil]
      omega
  exact key bs

/-- An MD5 digest is 16 bytes long. -/
theorem md5bytes_length (msg : List Nat) : (md5bytes msg).length = 16 := by
  simp [md5bytes, wordBytes]

/-- `H` on bytes always yields a 32-character hex string. -/
theorem Hbytes_length (bs : List Nat) : (Hbytes bs).length = 32 := by
  have h := bytesHex_length (md5bytes bs)
  rw [md5bytes_length bs] at h
  simpa [Hbytes] using h

/-! ## The claims -/

/-- C5: for every three strings realm, username and password (empty strings
included), `HA1(realm, username, password)` is the MD5 hex digest of the
colon-joined concatenation in the order username, realm, password. -/
theorem HA1_md5_chain (realm username password : String) :
    HA1 (some realm) (some username) password =
      bytesHex (md5bytes (strBytes (username ++ ":" ++ realm ++ ":" ++ password))) := rfl

/-- C9: the result of `check_digest_auth` does not depend on its
`user` (expected-username) argument: any two expected usernames give the same
result on otherwise identical inputs, as the verifier never reads it. -/
theorem check_digest_auth_ignores_user (u₁ u₂ passwd : String)
    (authorization : Option String) (path : String) (body : List Nat)
    (method : String) :
    check_digest_auth u₁ passwd authorization path body method =
      check_digest_auth u₂ passwd authorization path body method := rfl

/-- C4: with qop absent or `"auth"`, `HA2` is `H(method:uri)` for any body
(present or absent); with qop `"auth-int"` and a body supplied, `HA2` is
`H(method:uri:H(body))`, the inner body hash rendered as a 32-character hex
string and concatenated as text. -/
theorem HA2_qop_dispatch (c : Credentials) (m u : String)
    (ob : Option (List Nat)) (b : List Nat) :
    ((c.qop = none ∨ c.qop = some "auth") →
      HA2 c ⟨some m, some u, ob⟩ = .ok (H (m ++ ":" ++ u))) ∧
    (c.qop = some "auth-int" →
      HA2 c ⟨some m, some u, some b⟩ =
        .ok (H (m ++ ":" ++ u ++ ":" ++ Hbytes b)) ∧
      (Hbytes b).length = 32) := by
  constructor
  · rintro (h | h) <;> simp [HA2, h]
  · intro h
    exact ⟨by simp [HA2, h], Hbytes_length b⟩

/-- C4 witness: the dispatch evaluated at qop `"auth"` and `"auth-int"` on the
concrete `GET /` request with body `"hello"`. -/
theorem HA2_qop_dispatch_witness :
    HA2 cAuth reqStd = .ok (H ("GET" ++ ":" ++ "/")) ∧
    HA2 cAuthInt reqStd =
      .ok (H ("GET" ++ ":" ++ "/" ++ ":" ++ Hbytes (strBytes "hello"))) ∧
    (Hbytes (strBytes "hello")).length = 32 :=
  ⟨(HA2_qop_dispatch cAuth "GET" "/" (some (strBytes "hello")) (strBytes "hello")).1
      (Or.inr rfl),
   ((HA2_qop_dispatch cAuthInt "GET" "/" none (strBytes "hello")).2 rfl).1,
   ((HA2_qop_dispatch cAuthInt "GET" "/" none (strBytes "hello")).2 rfl).2⟩

/-- C7: any qop value other than `"auth"`, `"auth-int"` or absent is rejected
by both `HA2` and `response`: each fails with the unsupported-qop
`ValueError`, never hashing anyway. -/
theorem qop_closed_enumeration (c : Credentials) (req : RequestData)
    (password q : String) (hq : c.qop = some q) (h₁ : q ≠ "auth")
    (h₂ : q ≠ "auth-int") :
    HA2 c req = .error .valueErrorNoArgs ∧
    response c password req = .error .valueErrorNoArgs := by
  have hha2 : HA2 c req = .error .valueErrorNoArgs := by
    simp [HA2, hq, h₁, h₂]
  refine ⟨hha2, ?_⟩
  simp [response, hha2]

/-- C7 witness: the rejection evaluated at qop `"unknown-mode"`. -/
theorem qop_closed_enumeration_witness :
    HA2 cUnknownQop reqStd = .error .valueErrorNoArgs ∧
    response cUnknownQop "pw" reqStd = .error .valueErrorNoArgs :=
  qop_closed_enumeration cUnknownQop reqStd "pw" "unknown-mode" rfl
    (by decide) (by decide)

/-- C10: with qop absent and the nonce field also absent, `response` performs
no field-presence check: it crashes with `TypeError` while colon-joining the
`None` nonce, and the crash propagates uncaught through
`check_digest_auth`. -/
theorem noqop_missing_nonce_crash (c : Credentials) (password m u : String)
    (b : List Nat) (hq : c.qop = none) (hn : c.nonce = none) :
    response c password ⟨some m, some u, some b⟩ = .error .typeError ∧
    check_digest_auth_with (some c) password ⟨some m, some u, some b⟩ =
      .error .typeError := by
  have h1 : response c password ⟨some m, some u, some b⟩ = .error .typeError := by
    simp [response, HA2, hq, hn]
  exact ⟨h1, by simp [check_digest_auth_with, h1]⟩

/-- C10 witness: the crash evaluated at a concrete nonce-less, qop-less
credential set. -/
theorem noqop_missing_nonce_crash_witness :
    response { cNoQop with nonce := none } "pw" reqStd = .error .typeError ∧
    check_digest_auth_with (some { cNoQop with nonce := none }) "pw" reqStd =
      .error .typeError :=
  noqop_missing_nonce_crash { cNoQop with nonce := none } "pw" "GET" "/"
    (strBytes "hello") rfl rfl

/-- C3: with realm, username and nonce present and the request hash computed,
`response` is the 3-field chain `H(ha1:nonce:ha2)` when qop is absent, and the
6-field chain `H(ha1:nonce:nc:cnonce:qop:ha2)` (with the literal qop string
embedded, fields in exactly that order) when qop is `"auth"` or `"auth-int"`
with nc and cnonce present, where `ha1 = HA1(realm, username, password)`. -/
theorem response_hash_chains (c : Credentials)
    (password rl un n m u h2v : String) (b : List Nat)
    (hr : c.realm = some rl) (hu : c.username = some un) (hn : c.nonce = some n)
    (hha2 : HA2 c ⟨some m, some u, some b⟩ = .ok h2v) :
    (c.qop = none →
      response c password ⟨some m, some u, some b⟩ =
        .ok (H (HA1 (some rl) (some un) password ++ ":" ++ n ++ ":" ++ h2v))) ∧
    (∀ q nc cn, c.qop = some q → (q = "auth" ∨ q = "auth-int") →
      c.nc = some nc → c.cnonce = some cn →
      response c password ⟨some m, some u, some b⟩ =
        .ok (H (HA1 (some rl) (some un) password ++ ":" ++ n ++ ":" ++ nc ++
          ":" ++ cn ++ ":" ++ q ++ ":" ++ h2v))) := by
  constructor
  · intro hq
    simp [response, hha2, hq, hn, hr, hu, joinStrs, String.append_assoc]
  · intro q nc cn hq hqv hnc hcn
    have hcond : (q = "auth" ∨ q = "auth-int") = True := eq_true hqv
    simp [response, hha2, hq, hcond, hn, hr, hu, hnc, hcn, joinStrs,
      String.append_assoc]

/-- C3 witness: both chains evaluated at the concrete credential sets, with
the request hash `H("GET:/")`. -/
theorem response_hash_chains_witness :
    response cNoQop "pw" reqStd =
      .ok (H (HA1 (some "r") (some "u") "pw" ++ ":" ++ "n" ++ ":" ++
        H ("GET" ++ ":" ++ "/"))) ∧
    response cAuth "pw" reqStd =
      .ok (H (HA1 (some "r") (some "u") "pw" ++ ":" ++ "n" ++ ":" ++
        "00000001" ++ ":" ++ "c" ++ ":" ++ "auth" ++ ":" ++
        H ("GET" ++ ":" ++ "/"))) :=
  ⟨(response_hash_chains cNoQop "pw" "r" "u" "n" "GET" "/"
      (H ("GET" ++ ":" ++ "/")) (strBytes "hello") rfl rfl rfl rfl).1 rfl,
   (response_hash_chains cAuth "pw" "r" "u" "n" "GET" "/"
      (H ("GET" ++ ":" ++ "/")) (strBytes "hello") rfl rfl rfl rfl).2
     "auth" "00000001" "c" rfl (Or.inl rfl) rfl rfl⟩

/-- C6: with qop `"auth"` or `"auth-int"` and a complete request context, a
missing nonce, nc or cnonce field makes `response` fail with the
missing-field `ValueError` naming the first missing field, the fields checked
one at a time in the order nonce, nc, cnonce, qop. -/
theorem response_missing_qop_fields (c : Credentials) (password m u q : String)
    (b : List Nat) (hq : c.qop = some q) (hqv : q = "auth" ∨ q = "auth-int")
    (hmiss : c.nonce = none ∨ c.nc = none ∨ c.cnonce = none) :
    response c password ⟨some m, some u, some b⟩ =
      .error (.valueError
        ((if c.nonce = none then "nonce"
          else if c.nc = none then "nc" else "cnonce") ++
          " required for response H")) := by
  rcases hqv with h | h <;> subst h <;>
    rcases hnon : c.nonce with _ | n <;>
      rcases hnc : c.nc with _ | nc <;>
        rcases hcn : c.cnonce with _ | cn <;>
          simp_all [response, HA2]

/-- C6 witness: qop `"auth"` with `nc` removed fails naming `nc`; with both
`nonce` and `nc` removed it fails naming `nonce` first. -/
theorem response_missing_qop_fields_witness :
    response { cAuth with nc := none } "pw" reqStd =
      .error (.valueError "nc required for response H") ∧
    response { cAuth with nonce := none, nc := none } "pw" reqStd =
      .error (.valueError "nonce required for response H") :=
  ⟨response_missing_qop_fields { cAuth with nc := none } "pw" "GET" "/" "auth"
      (strBytes "hello") rfl (Or.inl rfl) (Or.inr (Or.inl rfl)),
   response_missing_qop_fields { cAuth with nonce := none, nc := none } "pw"
      "GET" "/" "auth" (strBytes "hello") rfl (Or.inl rfl) (Or.inl rfl)⟩

/-- `response` never reads the `response` credential field: replacing it
leaves the computed hash unchanged. -/
theorem response_ignores_response_field (c : Credentials) (x : Option String)
    (password : String) (req : RequestData) :
    response { c with response := x } password req = response c password req := rfl

/-- C2: when `response` succeeds, `check_digest_auth_with` returns `True`
exactly when the supplied `response` field is present and equals the computed
hash under exact string comparison; consequently, on any accepted input,
changing any single character of the supplied response value flips the
result to `False`. -/
theorem verify_true_iff_response_match (c : Credentials) (password : String)
    (req : RequestData) (expected : String)
    (hok : response c password req = .ok expected) :
    (check_digest_auth_with (some c) password req = .ok .pyTrue ↔
      c.response = some expected) ∧
    (∀ (r rr : String) (i : Nat) (ch : Char), c.response = some r →
      check_digest_auth_with (some c) password req = .ok .pyTrue →
      i < r.data.length → r.data[i]? ≠ some ch → rr.data = r.data.set i ch →
      check_digest_auth_with (some { c with response := some rr }) password req =
        .ok .pyFalse) := by
  have hiff : check_digest_auth_with (some c) password req = .ok .pyTrue ↔
      c.response = some expected := by
    rcases hresp : c.response with _ | r
    · simp [check_digest_auth_with, hok, hresp]
    · by_cases he : r = expected
      · subst he
        simp [check_digest_auth_with, hok, hresp]
      · simp [check_digest_auth_with, hok, hresp, he]
  refine ⟨hiff, fun r rr i ch hresp htrue hi hne hset => ?_⟩
  have hre : r = expected := by
    have h1 := hiff.mp htrue
    rw [hresp] at h1
    exact Option.some.inj h1
  have hrr : rr ≠ expected := by
    intro heq
    apply hne
    have hdata : rr.data = r.data := by rw [heq, hre]
    rw [hdata] at hset
    have hget := List.getElem?_set_eq_of_lt ch (l := r.data) (n := i) hi
    rw [← hset] at hget
    exact hget
  have hresp2 : response { c with response := some rr } password req =
      .ok expected := by
    rw [response_ignores_response_field]
    exact hok
  simp [check_digest_auth_with, hresp2, hrr]

/-- C2 witness: the concrete qop-unspecified credential set is accepted, and
flipping the first character of its response value is rejected. -/
theorem verify_true_iff_response_match_witness :
    check_digest_auth_with (some cNoQop) "pw" reqStd = .ok .pyTrue ∧
    check_digest_auth_with
        (some { cNoQop with response := some "b02b39e920f463b25452d872479507c4" })
        "pw" reqStd = .ok .pyFalse := by
  have h := verify_true_iff_response_match cNoQop "pw" reqStd
    "a02b39e920f463b25452d872479507c4" rfl
  have htrue : check_digest_auth_with (some cNoQop) "pw" reqStd = .ok .pyTrue :=
    h.1.mpr rfl
  refine ⟨htrue, ?_⟩
  have h2 := h.2 "a02b39e920f463b25452d872479507c4"
    "b02b39e920f463b25452d872479507c4" 0 'b' rfl htrue (by decide) (by decide)
    (by decide)
  exact h2

/-- C1 counterexample: on a well-formed Digest header carrying the
unsupported qop value `unknown-mode`, `check_digest_auth` raises `ValueError`
instead of returning a boolean. -/
theorem check_digest_auth_raises :
    check_digest_auth "admin" "secret"
        (some "Digest username=\"u\", realm=\"r\", nonce=\"n\", uri=\"/\", response=\"abc\", qop=unknown-mode, nc=00000001, cnonce=\"x\"")
        "/" [] "GET" = .error .valueErrorNoArgs := rfl

/-- C1 amended: an absent `Authorization` header yields `False` and an
unparseable one yields `None` (both without raising), but a failure inside
`response` is not caught at the `check_digest_auth` boundary: the same
exception propagates to the caller instead of becoming `false`. -/
theorem check_digest_auth_outcomes :
    (∀ (user passwd path method : String) (body : List Nat),
      check_digest_auth user passwd none path body method = .ok .pyFalse) ∧
    (∀ (passwd : String) (req : RequestData),
      check_digest_auth_with none passwd req = .ok .pyNone) ∧
    (∀ (c : Credentials) (passwd : String) (req : RequestData) (e : PyError),
      response c passwd req = .error e →
      check_digest_auth_with (some c) passwd req = .error e) := by
  refine ⟨fun _ _ _ _ _ => rfl, fun _ _ => rfl, fun c passwd req e he => ?_⟩
  simp [check_digest_auth_with, he]

/-- C1 amended witness: the unsupported-qop `ValueError` propagates through
the verifier at a concrete credential set. -/
theorem check_digest_auth_outcomes_witness :
    check_digest_auth_with (some cUnknownQop) "pw" reqStd =
      .error .valueErrorNoArgs :=
  check_digest_auth_outcomes.2.2 cUnknownQop "pw" reqStd .valueErrorNoArgs rfl

/-- C8 counterexample: two requests identical except for their bodies — a
published MD5 collision pair — receive the same `HA2` value under qop
`"auth-int"`, so auth-int body sensitivity fails in general. -/
theorem HA2_authint_collision :
    collideA ≠ collideB ∧
    HA2 cAuthInt ⟨some "GET", some "/x", some collideA⟩ =
      HA2 cAuthInt ⟨some "GET", some "/x", some collideB⟩ := by
  refine ⟨md5_collision_pair.1, ?_⟩
  have h : Hbytes collideA = Hbytes collideB :=
    congrArg bytesHex md5_collision_pair.2
  simp [HA2, cAuthInt, cNoQop, h]

/-- C8 amended: under qop `"auth"` or unspecified, `HA2` is identical for any
two bodies; under `"auth-int"`, the outer hash inputs differ whenever the
bodies' MD5 digests differ, but the `HA2` values themselves coincide when the
bodies collide under MD5. -/
theorem HA2_body_dependence (c : Credentials) (m u : String)
    (b₁ b₂ : List Nat) :
    ((c.qop = none ∨ c.qop = some "auth") →
      HA2 c ⟨some m, some u, some b₁⟩ = HA2 c ⟨some m, some u, some b₂⟩) ∧
    (c.qop = some "auth-int" → Hbytes b₁ ≠ Hbytes b₂ →
      HA2 c ⟨some m, some u, some b₁⟩ =
        .ok (H (m ++ ":" ++ u ++ ":" ++ Hbytes b₁)) ∧
      HA2 c ⟨some m, some u, some b₂⟩ =
        .ok (H (m ++ ":" ++ u ++ ":" ++ Hbytes b₂)) ∧
      m ++ ":" ++ u ++ ":" ++ Hbytes b₁ ≠ m ++ ":" ++ u ++ ":" ++ Hbytes b₂) := by
  constructor
  · rintro (h | h) <;> simp [HA2, h]
  · intro h hne
    refine ⟨by simp [HA2, h], by simp [HA2, h], fun heq => hne (String.ext ?_)⟩
    have hd := congrArg String.data heq
    simp only [String.data_append] at hd
    exact List.append_cancel_left hd

/-- C8 amended witness: concrete bodies `"hello"` and `"bye"` leave the
qop-`"auth"` value unchanged and give distinct auth-int outer hash inputs. -/
theorem HA2_body_dependence_witness :
    HA2 cAuth ⟨some "GET", some "/", some (strBytes "hello")⟩ =
      HA2 cAuth ⟨some "GET", some "/", some (strBytes "bye")⟩ ∧
    "GET" ++ ":" ++ "/" ++ ":" ++ Hbytes (strBytes "hello") ≠
      "GET" ++ ":" ++ "/" ++ ":" ++ Hbytes (strBytes "bye") :=
  ⟨(HA2_body_dependence cAuth "GET" "/" (strBytes "hello") (strBytes "bye")).1
      (Or.inr rfl),
   ((HA2_body_dependence cAuthInt "GET" "/" (strBytes "hello")
      (strBytes "bye")).2 rfl (by decide)).2.2⟩

end Httpbin
